import Mathlib

/-!
# Verification of the thaifloodhelp intake logic

Shallow embedding of the two source files of the repository:

* `src/pages/Input.tsx` — text staging (typed / pasted / OCR text), the
  cleanup chain applied to pasted and OCR text, and the routing of the
  extraction response in `handleProcess`;
* the edit dialog (`EditReportDialog`) — the `handleSave` merge/save
  pipeline that builds the `dataToUpdate` payload and sends it to the
  `reports` table.

Strings are modelled by Lean `String` (a packed `List Char`); JavaScript
numbers that can be `NaN`/`undefined` at the relevant sites are modelled
by explicit sum types (`NumVal`, `LocVal`).  The external phone formatter
(`formatPhoneNumber`, from `@/lib/utils`, not part of the given sources)
is kept abstract: every definition that uses it takes it as a parameter
`fmt : String → String`.
-/

/-- The JS regex class `[​-‍﻿]`: the zero-width characters
removed by the text cleanup in `processImageFile` and `onPaste`. -/
def isZW (c : Char) : Bool :=
  (0x200B ≤ c.toNat && c.toNat ≤ 0x200D) || c.toNat == 0xFEFF

/-- The JS whitespace set `\s` (WhiteSpace ∪ LineTerminator), which is also
exactly the set stripped by `String.prototype.trim`. -/
def isWS (c : Char) : Bool :=
  c == ' ' || c == '\t' || c == '\n' || c.toNat == 0x0B || c.toNat == 0x0C ||
  c == '\r' || c.toNat == 0xA0 || c.toNat == 0x1680 ||
  (0x2000 ≤ c.toNat && c.toNat ≤ 0x200A) || c.toNat == 0x2028 ||
  c.toNat == 0x2029 || c.toNat == 0x202F || c.toNat == 0x205F ||
  c.toNat == 0x3000 || c.toNat == 0xFEFF

/-- The JS regex class `[^\S\r\n]`: whitespace other than CR and LF
(the characters collapsed by `.replace(/[^\S\r\n]+/g, " ")`). -/
def isSP (c : Char) : Bool :=
  isWS c && !(c == '\r') && !(c == '\n')

/-- `.replace(/[^\S\r\n]+/g, " ")`: every maximal run of non-newline
whitespace becomes a single space.  (The single space for a run is emitted
at the last character of the run, which yields the same output as the
regex replacement.) -/
def collapseWS : List Char → List Char
  | [] => []
  | [c] => if isSP c then [' '] else [c]
  | c :: d :: rest =>
    if isSP c then
      if isSP d then collapseWS (d :: rest)
      else ' ' :: collapseWS (d :: rest)
    else c :: collapseWS (d :: rest)

/-- `String.prototype.trim` on the character list: drop JS whitespace from
both ends. -/
def jsTrimL (l : List Char) : List Char :=
  List.rdropWhile isWS (l.dropWhile isWS)

/-- `s.trim()`. -/
def jsTrimS (s : String) : String :=
  ⟨jsTrimL s.data⟩

/-- The cleanup chain on the character list: remove zero-width characters,
collapse runs of non-newline whitespace to one space, trim. -/
def normalizeChars (l : List Char) : List Char :=
  jsTrimL (collapseWS (l.filter (fun c => !isZW c)))

/-- The cleanup chain
`.replace(/[​-‍﻿]/g, "").replace(/[^\S\r\n]+/g, " ").trim()`
applied to pasted text in `onPaste` and to OCR text in `processImageFile`
(Input.tsx): remove zero-width characters, collapse runs of non-newline
whitespace to one space, trim. -/
def normalizeText (s : String) : String :=
  ⟨normalizeChars s.data⟩

/-- `headNotSP cs` holds when `cs` does not start with a collapsible
whitespace character. -/
def headNotSP : List Char → Bool
  | [] => true
  | c :: _ => !isSP c

/-- A character list is in the image of `collapseWS`: every collapsible
whitespace character in it is a plain space, and no such character is
immediately followed by another one. -/
def isCollapsed : List Char → Bool
  | [] => true
  | c :: cs => (!isSP c || (c == ' ' && headNotSP cs)) && isCollapsed cs

/-! ## Staging of text in Input.tsx -/

/-- The `Textarea` `onChange` handler: `setRawMessage(e.target.value)` —
typed text is staged verbatim. -/
def typedStage (v : String) : String := v

/-- The text branch of `onPaste`:
`setRawMessage((prev) => (prev ? prev + cleanedText : cleanedText))`
where `cleanedText` is the cleanup chain applied to the pasted text. -/
def pasteStage (prev pasted : String) : String :=
  let cleaned := normalizeText pasted
  if prev = "" then cleaned else prev ++ cleaned

/-- The cleaned OCR text in `processImageFile`: the service response text
is first trimmed (`data.text?.trim()`), then passed through the cleanup
chain. -/
def ocrClean (t : String) : String :=
  normalizeText (jsTrimS t)

/-- The staging update in `processImageFile`:
`setRawMessage((prev) => (prev ? prev + "\n\n" + cleanedText : cleanedText))`. -/
def ocrAppend (prev cleaned : String) : String :=
  if prev = "" then cleaned else prev ++ "\n\n" ++ cleaned

/-- The full OCR staging path: clean the service text, then append. -/
def ocrStage (prev t : String) : String :=
  ocrAppend prev (ocrClean t)

/-- The extraction request body in `handleProcess`:
`{ rawMessage: rawMessage.trim() }` — the staged text is only trimmed
before being sent. -/
def sendPayload (staged : String) : String :=
  jsTrimS staged

/-! ## Extraction response routing (`handleProcess`, Input.tsx) -/

/-- A structured report candidate returned by the `extract-report`
function.  Only the `phone` field is inspected by the routing code; the
remaining extracted fields are carried through the `...report` spread
unchanged and are modelled by the opaque `rest` component. -/
structure Candidate where
  phone : Option (List String) := none
  rest : String := ""
deriving DecidableEq, Inhabited

/-- The per-candidate phone formatting in `handleProcess`:
`{ ...report, phone: report.phone?.map((p) => formatPhoneNumber(p)) || [] }`. -/
def formatCandidate (fmt : String → String) (c : Candidate) : Candidate :=
  { c with phone := some ((c.phone.getD []).map fmt) }

/-- The user-visible outcome of `handleProcess` after the extraction call
returns: an error message (caught and surfaced, no navigation), or
navigation to `/review` with a single candidate, or navigation to
`/select` with all candidates. -/
inductive Outcome where
  | failure (msg : String)
  | review (c : Candidate)
  | select (cs : List Candidate)
deriving DecidableEq

/-- The message of the `Error` thrown when nothing was extracted. -/
def noExtractMsg : String := "ไม่พบข้อมูลที่สามารถแยกได้"

/-- The body of `handleProcess` after the `extract-report` call, given the
response `data` (its `error` and `reports` fields): throw on a reported
error, format phones in every candidate, then route on the number of
candidates (`> 1` → selection page, `=== 1` → review page, otherwise
throw the "nothing extracted" error). -/
def handleProcessRoute (fmt : String → String) (error : Option String)
    (reports : Option (List Candidate)) : Outcome :=
  match error with
  | some e => .failure e
  | none =>
    match reports with
    | none => .failure noExtractMsg
    | some rs =>
      let formatted := rs.map (formatCandidate fmt)
      if formatted.length > 1 then .select formatted
      else if formatted.length = 1 then .review formatted.head!
      else .failure noExtractMsg

/-! ## The merge/save pipeline (`handleSave`, EditReportDialog) -/

/-- A JS numeric form value at a population-counter site: the TS type is
`number`, but at runtime the value can also be `NaN` (e.g. from
`parseInt` of unparseable text) or `undefined`. -/
inductive NumVal where
  | undef
  | nan
  | num (n : Int)
deriving DecidableEq

/-- JS `v || 0` on a numeric value: `undefined`, `NaN` and `0` are falsy
and give `0`; any other number passes through. -/
def NumVal.orZero : NumVal → Int
  | .undef => 0
  | .nan => 0
  | .num n => if n = 0 then 0 else n

/-- A JS value at the `location_lat` / `location_long` sites: `null`,
`NaN` (from `parseFloat` of unparseable text in the field's `onChange`),
or a number (modelled by a rational). -/
inductive LocVal where
  | null
  | nan
  | num (x : ℚ)
deriving DecidableEq

/-- `v ? parseFloat(String(v)) : null`: `null`, `NaN` and `0` are falsy
and give `null`; for any other number `parseFloat(String(v))` returns the
number itself. -/
def LocVal.save : LocVal → Option ℚ
  | .null => none
  | .nan => none
  | .num x => if x = 0 then none else some x

/-- The `Report` record (the TS `Report` interface): the dialog's form
state `formData` has this shape, and it is also the shape of the stored
row.  Numeric fields use the JS-value models above. -/
structure Report where
  id : String := ""
  name : String := ""
  lastname : String := ""
  reporter_name : String := ""
  address : String := ""
  phone : List String := []
  number_of_adults : NumVal := .num 0
  number_of_children : NumVal := .num 0
  number_of_infants : NumVal := .num 0
  number_of_seniors : NumVal := .num 0
  number_of_patients : NumVal := .num 0
  health_condition : String := ""
  help_needed : String := ""
  help_categories : Option (List String) := some []
  additional_info : String := ""
  urgency_level : Int := 1
  status : String := ""
  created_at : String := ""
  updated_at : String := ""
  raw_message : String := ""
  location_lat : LocVal := .null
  location_long : LocVal := .null
  map_link : Option String := none
deriving DecidableEq

/-- The `dataToUpdate` object built by `handleSave`: exactly these keys
and no others — in particular no `raw_message`, `id`, `created_at` or
`updated_at` key. -/
structure UpdatePayload where
  name : String
  lastname : String
  reporter_name : String
  address : String
  phone : List String
  location_lat : Option ℚ
  location_long : Option ℚ
  map_link : Option String
  number_of_adults : Int
  number_of_children : Int
  number_of_infants : Int
  number_of_seniors : Int
  number_of_patients : Int
  health_condition : String
  help_needed : String
  help_categories : List String
  additional_info : String
  urgency_level : Int
  status : String
deriving DecidableEq

/-- The phone parsing in `handleSave`:
`phoneInput.split(',').map(p => p.trim()).filter(p => p.length > 0).map(p => formatPhoneNumber(p))`. -/
def splitPhones (fmt : String → String) (input : String) : List String :=
  (((input.splitOn ",").map jsTrimS).filter (fun p => 0 < p.length)).map fmt

/-- The construction of `dataToUpdate` in `handleSave`, field by field
from the form state `fd` and the raw phone input string. -/
def mkDataToUpdate (fmt : String → String) (fd : Report)
    (phoneInput : String) : UpdatePayload where
  name := if fd.name ≠ "" ∧ fd.name ≠ "-" then fd.name else "ไม่ระบุชื่อ"
  lastname := fd.lastname
  reporter_name := fd.reporter_name
  address := fd.address
  phone := splitPhones fmt phoneInput
  location_lat := fd.location_lat.save
  location_long := fd.location_long.save
  map_link := match fd.map_link with
    | none => none
    | some s => if s = "" then none else some s
  number_of_adults := fd.number_of_adults.orZero
  number_of_children := fd.number_of_children.orZero
  number_of_infants := fd.number_of_infants.orZero
  number_of_seniors := fd.number_of_seniors.orZero
  number_of_patients := fd.number_of_patients.orZero
  health_condition := fd.health_condition
  help_needed := fd.help_needed
  help_categories := fd.help_categories.getD []
  additional_info := fd.additional_info
  urgency_level := fd.urgency_level
  status := fd.status

/-- The persistence update
`supabase.from('reports').update(dataToUpdate).eq('id', report.id)`:
exactly the keys present in the payload are overwritten; every other
column of the row keeps its value. -/
def applyUpdate (r : Report) (u : UpdatePayload) : Report :=
  { r with
    name := u.name
    lastname := u.lastname
    reporter_name := u.reporter_name
    address := u.address
    phone := u.phone
    location_lat := match u.location_lat with
      | none => .null
      | some x => .num x
    location_long := match u.location_long with
      | none => .null
      | some x => .num x
    map_link := u.map_link
    number_of_adults := .num u.number_of_adults
    number_of_children := .num u.number_of_children
    number_of_infants := .num u.number_of_infants
    number_of_seniors := .num u.number_of_seniors
    number_of_patients := .num u.number_of_patients
    health_condition := u.health_condition
    help_needed := u.help_needed
    help_categories := some u.help_categories
    additional_info := u.additional_info
    urgency_level := u.urgency_level
    status := u.status }

/-- A numeric form value is non-negative (vacuously so when it is not a
number). -/
def NumVal.nonNeg : NumVal → Prop
  | .num n => 0 ≤ n
  | _ => True

/-! Concrete inputs used by counterexamples and witnesses. -/

/-- Candidate used by witnesses. -/
def candA : Candidate := { rest := "a" }

/-- Candidate used by witnesses. -/
def candB : Candidate := { phone := some ["081-111-1111"], rest := "b" }

/-- Form state with a negative adult counter (enterable through the
number field: `parseInt("-3") || 0` stores `-3`). -/
def fdNegAdults : Report := { number_of_adults := .num (-3) }

/-- Form state whose counters are a mix of valid, `NaN`, `undefined` and
zero values. -/
def fdMix : Report :=
  { number_of_adults := .num 2, number_of_children := .nan,
    number_of_infants := .undef, number_of_seniors := .num 0,
    number_of_patients := .num 7 }

/-- Form state with latitude `0` (the equator), a present, valid
coordinate. -/
def fdLatZero : Report := { location_lat := .num 0 }

/-- Form state with a nonzero latitude and an unparseable (NaN)
longitude. -/
def fdLoc : Report := { location_lat := .num 7, location_long := .nan }

/-- Typed text containing a zero-width character and a doubled space:
not a fixed point of the normalizer. -/
def zwSample : String := "a\u200B  b"

/-! ## Lemmas about the normalizer -/

theorem isSP_space : isSP ' ' = true := by decide

theorem isZW_space : isZW ' ' = false := by decide

theorem collapseWS_headNotSP (d : Char) (rest : List Char)
    (h : isSP d = false) : headNotSP (collapseWS (d :: rest)) = true := by
  cases rest <;> simp [collapseWS, headNotSP, h]

theorem isCollapsed_collapseWS (l : List Char) :
    isCollapsed (collapseWS l) = true := by
  induction l with
  | nil => rfl
  | cons c cs ih =>
    cases cs with
    | nil =>
      by_cases h : isSP c = true <;>
        simp [collapseWS, h, isCollapsed, headNotSP, isSP_space]
    | cons d rest =>
      by_cases hc : isSP c = true
      · by_cases hd : isSP d = true
        · simpa [collapseWS, hc, hd] using ih
        · have hh := collapseWS_headNotSP d rest (by simpa using hd)
          simp [collapseWS, hc, hd, isCollapsed, isSP_space, hh, ih]
      · simp [collapseWS, hc, isCollapsed, ih]

theorem isCollapsed_cons (c : Char) (cs : List Char) :
    isCollapsed (c :: cs) =
      ((!isSP c || (c == ' ' && headNotSP cs)) && isCollapsed cs) := rfl

theorem isCollapsed_cons_elim {c : Char} {cs : List Char}
    (h : isCollapsed (c :: cs) = true) :
    (isSP c = false ∨ (c = ' ' ∧ headNotSP cs = true)) ∧
      isCollapsed cs = true := by
  rw [isCollapsed_cons] at h
  simpa only [Bool.and_eq_true, Bool.or_eq_true, Bool.not_eq_true',
    beq_iff_eq] using h

theorem collapseWS_of_isCollapsed : ∀ l : List Char,
    isCollapsed l = true → collapseWS l = l := by
  intro l
  induction l with
  | nil => intro _; rfl
  | cons c cs ih =>
    intro h
    obtain ⟨h1, h2⟩ := isCollapsed_cons_elim h
    cases cs with
    | nil =>
      rcases h1 with h1 | ⟨rfl, -⟩
      · simp [collapseWS, h1]
      · simp [collapseWS, isSP_space]
    | cons d rest =>
      rcases h1 with h1 | ⟨rfl, hhd⟩
      · rw [collapseWS, if_neg (by simp [h1]), ih h2]
      · have hd : isSP d = false := by simpa [headNotSP] using hhd
        rw [collapseWS, if_pos (by simp [isSP_space]),
          if_neg (by simp [hd]), ih h2]

theorem isCollapsed_tail {c : Char} {cs : List Char}
    (h : isCollapsed (c :: cs) = true) : isCollapsed cs = true :=
  (isCollapsed_cons_elim h).2

theorem isCollapsed_dropWhile (p : Char → Bool) : ∀ l : List Char,
    isCollapsed l = true → isCollapsed (l.dropWhile p) = true := by
  intro l
  induction l with
  | nil => intro _; simpa
  | cons c cs ih =>
    intro h
    rw [List.dropWhile_cons]
    by_cases hp : p c = true
    · rw [if_pos hp]
      exact ih (isCollapsed_tail h)
    · rw [if_neg hp]
      exact h

theorem headNotSP_take (cs : List Char) (n : Nat)
    (h : headNotSP cs = true) : headNotSP (cs.take n) = true := by
  cases cs <;> cases n <;> simp_all [headNotSP]

theorem isCollapsed_take : ∀ (l : List Char) (n : Nat),
    isCollapsed l = true → isCollapsed (l.take n) = true := by
  intro l
  induction l with
  | nil => intro n h; simpa using h
  | cons c cs ih =>
    intro n h
    obtain ⟨h1, h2⟩ := isCollapsed_cons_elim h
    cases n with
    | zero => rfl
    | succ n =>
      rw [List.take_succ_cons, isCollapsed_cons]
      simp only [Bool.and_eq_true, Bool.or_eq_true, Bool.not_eq_true',
        beq_iff_eq]
      refine ⟨?_, ih n h2⟩
      rcases h1 with h1 | ⟨rfl, hhd⟩
      · exact Or.inl h1
      · exact Or.inr ⟨rfl, headNotSP_take cs n hhd⟩

theorem isCollapsed_rdropWhile (p : Char → Bool) (l : List Char)
    (h : isCollapsed l = true) :
    isCollapsed (List.rdropWhile p l) = true := by
  have hpre := List.rdropWhile_prefix p l
  rw [List.prefix_iff_eq_take] at hpre
  rw [hpre]
  exact isCollapsed_take l _ h

theorem dropWhile_head_false {α : Type} (p : α → Bool) : ∀ (l : List α)
    {c : α} {cs : List α}, l.dropWhile p = c :: cs → p c = false := by
  intro l
  induction l with
  | nil => intro c cs h; simp at h
  | cons a l ih =>
    intro c cs h
    rw [List.dropWhile_cons] at h
    by_cases hp : p a = true
    · rw [if_pos hp] at h
      exact ih h
    · rw [if_neg hp] at h
      injection h with h1 h2
      subst h1
      simpa [Bool.not_eq_true] using hp

theorem dropWhile_eq_self_of_head {p : Char → Bool} (l : List Char)
    (h : ∀ c cs, l = c :: cs → p c = false) : l.dropWhile p = l := by
  cases l with
  | nil => rfl
  | cons c cs =>
    rw [List.dropWhile_cons, if_neg]
    simp [h c cs rfl]

theorem jsTrimL_idem (l : List Char) : jsTrimL (jsTrimL l) = jsTrimL l := by
  unfold jsTrimL
  have hx : (List.rdropWhile isWS (l.dropWhile isWS)).dropWhile isWS =
      List.rdropWhile isWS (l.dropWhile isWS) := by
    apply dropWhile_eq_self_of_head
    intro c cs hcc
    have hpre := List.rdropWhile_prefix isWS (l.dropWhile isWS)
    rw [hcc] at hpre
    obtain ⟨r, hr⟩ := hpre
    rw [List.cons_append] at hr
    exact dropWhile_head_false isWS l hr.symm
  rw [hx, List.rdropWhile_idempotent]

theorem mem_collapseWS : ∀ (l : List Char) {c : Char},
    c ∈ collapseWS l → c = ' ' ∨ c ∈ l := by
  intro l
  induction l with
  | nil => intro c h; simp [collapseWS] at h
  | cons a cs ih =>
    cases cs with
    | nil =>
      intro c h
      by_cases ha : isSP a = true <;> simp [collapseWS, ha] at h
      · exact Or.inl h
      · exact Or.inr (by simp [h])
    | cons d rest =>
      intro c h
      by_cases ha : isSP a = true
      · by_cases hd : isSP d = true
        · rw [collapseWS, if_pos ha, if_pos hd] at h
          rcases ih h with h' | h'
          · exact Or.inl h'
          · exact Or.inr (List.mem_cons_of_mem a h')
        · rw [collapseWS, if_pos ha, if_neg (by simp [hd])] at h
          rcases List.mem_cons.mp h with rfl | h'
          · exact Or.inl rfl
          · rcases ih h' with h'' | h''
            · exact Or.inl h''
            · exact Or.inr (List.mem_cons_of_mem a h'')
      · rw [collapseWS, if_neg (by simp [ha])] at h
        rcases List.mem_cons.mp h with rfl | h'
        · exact Or.inr (List.mem_cons_self ..)
        · rcases ih h' with h'' | h''
          · exact Or.inl h''
          · exact Or.inr (List.mem_cons_of_mem a h'')

theorem mem_jsTrimL {l : List Char} {c : Char} (h : c ∈ jsTrimL l) :
    c ∈ l := by
  unfold jsTrimL at h
  have h1 := (List.rdropWhile_prefix isWS (l.dropWhile isWS)).subset h
  exact (List.dropWhile_suffix isWS).subset h1

theorem noZW_normalizeChars (l : List Char) {c : Char}
    (h : c ∈ normalizeChars l) : isZW c = false := by
  unfold normalizeChars at h
  have h1 := mem_jsTrimL h
  rcases mem_collapseWS _ h1 with rfl | h2
  · exact isZW_space
  · simpa using List.of_mem_filter h2

theorem filter_normalizeChars (l : List Char) :
    (normalizeChars l).filter (fun c => !isZW c) = normalizeChars l := by
  rw [List.filter_eq_self]
  intro a ha
  simp [noZW_normalizeChars l ha]

theorem isCollapsed_normalizeChars (l : List Char) :
    isCollapsed (normalizeChars l) = true := by
  unfold normalizeChars jsTrimL
  exact isCollapsed_rdropWhile _ _
    (isCollapsed_dropWhile _ _ (isCollapsed_collapseWS _))

theorem normalizeChars_idem (l : List Char) :
    normalizeChars (normalizeChars l) = normalizeChars l := by
  conv_lhs =>
    rw [show normalizeChars (normalizeChars l) =
      jsTrimL (collapseWS ((normalizeChars l).filter (fun c => !isZW c)))
      from rfl]
  rw [filter_normalizeChars,
    collapseWS_of_isCollapsed _ (isCollapsed_normalizeChars l)]
  show jsTrimL (jsTrimL (collapseWS _)) = _
  exact jsTrimL_idem _

/-! ## Claim theorems -/

/-- C5: the text normalizer (remove zero-width characters, collapse runs
of non-newline whitespace to a single space, trim) is idempotent: for
every string `s`, `normalize(normalize(s)) = normalize(s)`. -/
theorem normalizeText_idempotent (s : String) :
    normalizeText (normalizeText s) = normalizeText s := by
  show (⟨normalizeChars (normalizeChars s.data)⟩ : String) =
    ⟨normalizeChars s.data⟩
  rw [normalizeChars_idem]

/-- C4: for every (normalized) OCR result `y` and staged text `prev`, the
OCR staging update appends `y` after a blank line when `prev` is
non-empty, and stages `y` alone when `prev` is empty — it never replaces
existing staged text. -/
theorem ocrAppend_cases (prev y : String) :
    (prev ≠ "" → ocrAppend prev y = prev ++ "\n\n" ++ y) ∧
    (prev = "" → ocrAppend prev y = y) := by
  constructor <;> intro h <;> simp [ocrAppend, h]

/-- Witness for `ocrAppend_cases` at staged text `"X"` and OCR result
`"Y"`, and at empty staged text. -/
theorem ocrAppend_cases_witness :
    ocrAppend "X" "Y" = "X" ++ "\n\n" ++ "Y" ∧ ocrAppend "" "Y" = "Y" :=
  ⟨(ocrAppend_cases "X" "Y").1 (by decide), (ocrAppend_cases "" "Y").2 rfl⟩

/-- C10: pasted (non-image) text is normalized and concatenated directly
onto the existing staged text with no separator; with empty staged text
the result is the normalized pasted text alone — unlike OCR text, which
gets a blank-line separator. -/
theorem pasteStage_concat (prev t : String) :
    pasteStage prev t = prev ++ normalizeText t ∧
    (prev = "" → pasteStage prev t = normalizeText t) ∧
    (prev ≠ "" → ocrStage prev t = prev ++ "\n\n" ++ normalizeText (jsTrimS t)) := by
  refine ⟨?_, ?_, ?_⟩
  · by_cases h : prev = "" <;> simp [pasteStage, h]
  · intro h
    simp [pasteStage, h]
  · intro h
    simp [ocrStage, ocrAppend, ocrClean, h]

/-- Witness for `pasteStage_concat` at empty staged text and at staged
text `"X"`. -/
theorem pasteStage_concat_witness :
    pasteStage "" "u" = normalizeText "u" ∧
    ocrStage "X" "u" = "X" ++ "\n\n" ++ normalizeText (jsTrimS "u") :=
  ⟨(pasteStage_concat "" "u").2.1 rfl,
   (pasteStage_concat "X" "u").2.2 (by decide)⟩

/-- C9 counterexample: typed text is staged verbatim by the `Textarea`
`onChange` handler and sent downstream only trimmed, so text containing a
zero-width character and a doubled space enters the staged message and
the extraction payload without ever passing through the normalizer
(whose output on it would be `"a b"`). -/
theorem typed_text_unnormalized_counterexample :
    typedStage zwSample = zwSample ∧
    sendPayload (typedStage zwSample) = zwSample ∧
    normalizeText zwSample = "a b" ∧
    zwSample ≠ "a b" := by
  refine ⟨rfl, by decide, by decide, by decide⟩

/-- C9 amended: pasted and OCR-derived text is passed through the Text
Normalizer before entering the staged message; typed text, however, is
staged verbatim, and the extraction payload is the staged text only
trimmed. -/
theorem staging_normalization_amended (prev t v : String) :
    pasteStage prev t = prev ++ normalizeText t ∧
    ocrStage prev t = ocrAppend prev (normalizeText (jsTrimS t)) ∧
    typedStage v = v ∧
    sendPayload v = jsTrimS v := by
  refine ⟨?_, rfl, rfl, rfl⟩
  by_cases h : prev = "" <;> simp [pasteStage, h]

/-- C1: the routing after phone formatting is exhaustive on the number of
returned candidates: a missing `reports` array or an empty one yields the
user-visible "nothing extracted" failure (no navigation), exactly one
candidate proceeds directly to the review path with that (formatted)
candidate, and more than one candidate presents all (formatted)
candidates on the selection path. -/
theorem extraction_routing (fmt : String → String) (rs : List Candidate) :
    handleProcessRoute fmt none none = Outcome.failure noExtractMsg ∧
    (rs = [] →
      handleProcessRoute fmt none (some rs) = Outcome.failure noExtractMsg) ∧
    (∀ c, rs = [c] →
      handleProcessRoute fmt none (some rs) =
        Outcome.review (formatCandidate fmt c)) ∧
    (2 ≤ rs.length →
      handleProcessRoute fmt none (some rs) =
        Outcome.select (rs.map (formatCandidate fmt))) := by
  refine ⟨rfl, ?_, ?_, ?_⟩
  · rintro rfl
    rfl
  · rintro c rfl
    rfl
  · intro h
    have hh : 1 < rs.length := h
    simp [handleProcessRoute, hh]

/-- Witness for `extraction_routing` at zero, one and two candidates. -/
theorem extraction_routing_witness :
    handleProcessRoute id none (some ([] : List Candidate)) =
      Outcome.failure noExtractMsg ∧
    handleProcessRoute id none (some [candA]) =
      Outcome.review (formatCandidate id candA) ∧
    handleProcessRoute id none (some [candA, candB]) =
      Outcome.select ([candA, candB].map (formatCandidate id)) :=
  ⟨(extraction_routing id []).2.1 rfl,
   (extraction_routing id [candA]).2.2.1 candA rfl,
   (extraction_routing id [candA, candB]).2.2.2 (by decide)⟩

/-- `v || 0` is non-negative whenever the value is a non-negative number
(or not a number at all). -/
theorem NumVal.orZero_nonneg {v : NumVal} (h : v.nonNeg) : 0 ≤ v.orZero := by
  cases v with
  | undef => simp [orZero]
  | nan => simp [orZero]
  | num n =>
    by_cases hn : n = 0 <;> simp [orZero, hn]
    exact h

/-- `v || 0` coerces a missing or invalid value to `0`. -/
theorem NumVal.orZero_invalid {v : NumVal}
    (h : v = NumVal.nan ∨ v = NumVal.undef) : v.orZero = 0 := by
  rcases h with rfl | rfl <;> rfl

/-- C2 counterexample: the claim "each population counter in the record
produced by the merge/save pipeline is a non-negative integer" fails: a
form state with `number_of_adults = -3` (enterable through the number
field, since `parseInt("-3") || 0` stores `-3`) is saved as `-3`. -/
theorem counters_negative_counterexample :
    (mkDataToUpdate id fdNegAdults "").number_of_adults = -3 ∧
    ¬ 0 ≤ (mkDataToUpdate id fdNegAdults "").number_of_adults := by
  exact ⟨by decide, by decide⟩

/-- C2 amended: each of the five population counters is coerced by
`v || 0`: a missing (`undefined`) or invalid (`NaN`) value is stored as
`0`, and the stored value is non-negative whenever the form value is a
non-negative integer (or missing/invalid); a negative form value,
however, passes through unchanged. -/
theorem counters_amended (fmt : String → String) (fd : Report)
    (pin : String)
    (ha : fd.number_of_adults.nonNeg) (hc : fd.number_of_children.nonNeg)
    (hi : fd.number_of_infants.nonNeg) (hs : fd.number_of_seniors.nonNeg)
    (hp : fd.number_of_patients.nonNeg) :
    (0 ≤ (mkDataToUpdate fmt fd pin).number_of_adults ∧
     0 ≤ (mkDataToUpdate fmt fd pin).number_of_children ∧
     0 ≤ (mkDataToUpdate fmt fd pin).number_of_infants ∧
     0 ≤ (mkDataToUpdate fmt fd pin).number_of_seniors ∧
     0 ≤ (mkDataToUpdate fmt fd pin).number_of_patients) ∧
    (fd.number_of_adults = NumVal.nan ∨ fd.number_of_adults = NumVal.undef →
      (mkDataToUpdate fmt fd pin).number_of_adults = 0) ∧
    (fd.number_of_children = NumVal.nan ∨ fd.number_of_children = NumVal.undef →
      (mkDataToUpdate fmt fd pin).number_of_children = 0) ∧
    (fd.number_of_infants = NumVal.nan ∨ fd.number_of_infants = NumVal.undef →
      (mkDataToUpdate fmt fd pin).number_of_infants = 0) ∧
    (fd.number_of_seniors = NumVal.nan ∨ fd.number_of_seniors = NumVal.undef →
      (mkDataToUpdate fmt fd pin).number_of_seniors = 0) ∧
    (fd.number_of_patients = NumVal.nan ∨ fd.number_of_patients = NumVal.undef →
      (mkDataToUpdate fmt fd pin).number_of_patients = 0) :=
  ⟨⟨NumVal.orZero_nonneg ha, NumVal.orZero_nonneg hc, NumVal.orZero_nonneg hi,
    NumVal.orZero_nonneg hs, NumVal.orZero_nonneg hp⟩,
   fun h => NumVal.orZero_invalid h, fun h => NumVal.orZero_invalid h,
   fun h => NumVal.orZero_invalid h, fun h => NumVal.orZero_invalid h,
   fun h => NumVal.orZero_invalid h⟩

/-- Witness for `counters_amended` on a form state mixing valid, `NaN`,
`undefined` and zero counters. -/
theorem counters_amended_witness :
    0 ≤ (mkDataToUpdate id fdMix "").number_of_adults ∧
    (mkDataToUpdate id fdMix "").number_of_children = 0 ∧
    (mkDataToUpdate id fdMix "").number_of_infants = 0 :=
  ⟨((counters_amended id fdMix ""
      (by norm_num [fdMix, NumVal.nonNeg]) trivial trivial
      (by norm_num [fdMix, NumVal.nonNeg])
      (by norm_num [fdMix, NumVal.nonNeg])).1).1,
   (counters_amended id fdMix ""
      (by norm_num [fdMix, NumVal.nonNeg]) trivial trivial
      (by norm_num [fdMix, NumVal.nonNeg])
      (by norm_num [fdMix, NumVal.nonNeg])).2.2.1 (Or.inl rfl),
   (counters_amended id fdMix ""
      (by norm_num [fdMix, NumVal.nonNeg]) trivial trivial
      (by norm_num [fdMix, NumVal.nonNeg])
      (by norm_num [fdMix, NumVal.nonNeg])).2.2.2.1 (Or.inr rfl)⟩

/-- `v ? parseFloat(String(v)) : null` on a nonzero number keeps the
number. -/
theorem LocVal.save_num {x : ℚ} (hx : x ≠ 0) :
    LocVal.save (LocVal.num x) = some x := by
  simp [save, hx]

/-- `v ? parseFloat(String(v)) : null` on a falsy value (`null`, `NaN`,
`0`) stores `null`. -/
theorem LocVal.save_falsy {v : LocVal}
    (h : v = LocVal.null ∨ v = LocVal.nan ∨ v = LocVal.num 0) :
    v.save = none := by
  rcases h with rfl | rfl | rfl <;> simp [save]

/-- C3 counterexample: the claim "location_lat maps to its floating-point
parse when the field is present and non-empty" fails at the present,
valid coordinate `0` (the equator): the save pipeline stores `null`
because `0` is falsy. -/
theorem location_zero_counterexample :
    fdLatZero.location_lat = LocVal.num 0 ∧
    (mkDataToUpdate id fdLatZero "").location_lat = none ∧
    (mkDataToUpdate id fdLatZero "").location_lat ≠ some 0 := by
  refine ⟨rfl, by decide, by decide⟩

/-- C3 amended: each of `location_lat` / `location_long` is stored as its
numeric value when the field holds a nonzero number, and as `null` when
the field is absent (`null`), holds unparseable text (`NaN`), or holds
`0`; invalid numeric text is treated as absent, never an error. -/
theorem location_save_amended (fmt : String → String) (fd : Report)
    (pin : String) :
    (∀ x : ℚ, x ≠ 0 → fd.location_lat = LocVal.num x →
      (mkDataToUpdate fmt fd pin).location_lat = some x) ∧
    (fd.location_lat = LocVal.null ∨ fd.location_lat = LocVal.nan ∨
        fd.location_lat = LocVal.num 0 →
      (mkDataToUpdate fmt fd pin).location_lat = none) ∧
    (∀ x : ℚ, x ≠ 0 → fd.location_long = LocVal.num x →
      (mkDataToUpdate fmt fd pin).location_long = some x) ∧
    (fd.location_long = LocVal.null ∨ fd.location_long = LocVal.nan ∨
        fd.location_long = LocVal.num 0 →
      (mkDataToUpdate fmt fd pin).location_long = none) := by
  refine ⟨?_, ?_, ?_, ?_⟩
  · intro x hx hl
    show fd.location_lat.save = some x
    rw [hl]
    exact LocVal.save_num hx
  · intro h
    exact LocVal.save_falsy h
  · intro x hx hl
    show fd.location_long.save = some x
    rw [hl]
    exact LocVal.save_num hx
  · intro h
    exact LocVal.save_falsy h

/-- Witness for `location_save_amended` on a form state with a nonzero
latitude and an unparseable longitude. -/
theorem location_save_amended_witness :
    (mkDataToUpdate id fdLoc "").location_lat = some 7 ∧
    (mkDataToUpdate id fdLoc "").location_long = none :=
  ⟨(location_save_amended id fdLoc "").1 7 (by norm_num) rfl,
   (location_save_amended id fdLoc "").2.2.2 (Or.inr (Or.inl rfl))⟩

/-- Non-emptiness of a string is the same as positive length. -/
theorem string_length_pos_iff (s : String) : 0 < s.length ↔ s ≠ "" := by
  cases s with
  | mk l =>
    rw [String.length_mk]
    rw [show ("" : String) = ⟨[]⟩ from rfl]
    simp [String.ext_iff, List.length_pos]

/-- C6: the merge/save pipeline maps the comma-separated phone input to
the ordered list obtained by splitting on commas, trimming each entry,
dropping entries that are empty after trimming, and formatting each
remaining entry with the phone formatter; no deduplication happens. -/
theorem phone_pipeline (fmt : String → String) (fd : Report)
    (input : String) :
    (mkDataToUpdate fmt fd input).phone =
      (((input.splitOn ",").map jsTrimS).filter (fun p => p ≠ "")).map fmt := by
  show splitPhones fmt input = _
  unfold splitPhones
  congr 1
  apply List.filter_congr
  intro s _
  exact decide_eq_decide.mpr (string_length_pos_iff s)

/-- C7: the merge/save pipeline stores the "unspecified" sentinel for the
name exactly when the form name is empty (absent) or the placeholder
dash, and passes any other name through unchanged. -/
theorem name_sentinel (fmt : String → String) (fd : Report)
    (pin : String) :
    ((fd.name = "" ∨ fd.name = "-") →
      (mkDataToUpdate fmt fd pin).name = "ไม่ระบุชื่อ") ∧
    (fd.name ≠ "" → fd.name ≠ "-" →
      (mkDataToUpdate fmt fd pin).name = fd.name) := by
  constructor
  · intro h
    have hn : ¬(fd.name ≠ "" ∧ fd.name ≠ "-") := by tauto
    show (if fd.name ≠ "" ∧ fd.name ≠ "-" then fd.name else "ไม่ระบุชื่อ") = _
    rw [if_neg hn]
  · intro h1 h2
    show (if fd.name ≠ "" ∧ fd.name ≠ "-" then fd.name else "ไม่ระบุชื่อ") = _
    rw [if_pos ⟨h1, h2⟩]

/-- Witness for `name_sentinel` at the placeholder dash and at an
ordinary name. -/
theorem name_sentinel_witness :
    (mkDataToUpdate id ({ name := "-" } : Report) "").name = "ไม่ระบุชื่อ" ∧
    (mkDataToUpdate id ({ name := "สมชาย" } : Report) "").name = "สมชาย" :=
  ⟨(name_sentinel id { name := "-" } "").1 (Or.inr rfl),
   (name_sentinel id { name := "สมชาย" } "").2 (by decide) (by decide)⟩

/-- C8: the `dataToUpdate` payload contains no `raw_message` key, so the
stored `raw_message` after any edit/save equals the stored `raw_message`
before it. -/
theorem raw_message_immutable (fmt : String → String) (r fd : Report)
    (pin : String) :
    (applyUpdate r (mkDataToUpdate fmt fd pin)).raw_message =
      r.raw_message := rfl
